import Mathlib

/-!
Verification of the anyrun applications plugin (src/plugins/applications/src/lib.rs):
the ranker (get_matches), the launch dispatcher (handler) and the
configuration fallback of init, embedded shallowly in Lean.
-/

namespace Anyrun

/-- Modelled from the spec: the `DesktopEntry` struct lives in the scrubber
module, which is not among the provided sources; its fields are exactly those
lib.rs reads: name, desc, exec, icon, keywords, term, path and offset
(spec section 3's Entry record). -/
structure DesktopEntry where
  name : String
  desc : Option String
  exec : String
  icon : String
  keywords : List String
  term : Bool
  path : Option String
  offset : Int
  deriving DecidableEq

/-- Plugin configuration, from `struct Config` in lib.rs. The source field
`ignore_prefix` is here named `ignorePrefixVal`. -/
structure Config where
  desktop_actions : Bool
  max_entries : Nat
  terminal : Option String
  ignorePrefixVal : String
  deriving DecidableEq

/-- Default configuration, from `impl Default for Config` in lib.rs. -/
def Config.default : Config :=
  { desktop_actions := false
    max_entries := 5
    terminal := none
    ignorePrefixVal := "" }

/-- Plugin state, from `struct State` in lib.rs: the parsed configuration and
the entry catalog, a vector of desktop entries paired with their u64 ids. -/
structure State where
  config : Config
  entries : List (DesktopEntry × Nat)
  deriving DecidableEq

/-- A ranked result row, with the fields the `Match` value built at the end of
get_matches carries: title, description, pango flag, icon and id. -/
structure Match where
  title : String
  description : Option String
  use_pango : Bool
  icon : Option String
  id : Option Nat
  deriving DecidableEq

/-- The fuzzy matcher is the external fuzzy_matcher crate (SkimMatcherV2 with
smart_case); it is kept abstract as a function from haystack and query to an
optional i64 score, the signature of fuzzy_match. -/
abbrev MatchFn : Type := String → String → Option Int

/-- The aggregate score computed for one entry inside get_matches:
`(name_score * 150 + comment_score * 50 + 25 * exec_score + keyword_score) - offset`,
where each absent match contributes 0 via unwrap_or(0) and the comment score
is 0 when the description is absent. -/
def entryScore (m : MatchFn) (input : String) (entry : DesktopEntry) : Int :=
  ((m entry.name input).getD 0 * 150
      + (match entry.desc with
          | none => 0
          | some comment => (m comment input).getD 0) * 50
      + 25 * (m entry.exec input).getD 0
      + (entry.keywords.map (fun keyword => (m keyword input).getD 0)).sum)
    - entry.offset

/-- The filter_map stage of get_matches: each catalog pair whose aggregate
score is strictly positive is kept as the triple of entry, id and score. -/
def candidates (m : MatchFn) (input : String) (s : State) :
    List (DesktopEntry × Nat × Int) :=
  s.entries.filterMap (fun p =>
    if entryScore m input p.1 > 0 then some (p.1, p.2, entryScore m input p.1) else none)

/-- The comparator of the sort_by call: `b.2.cmp(&a.2)` orders by descending
score, so the stable sort keeps a before b exactly when b's score is at most
a's score. -/
def scoreLe (a b : DesktopEntry × Nat × Int) : Bool :=
  decide (b.2.2 ≤ a.2.2)

/-- The sorted candidate list: Rust's sort_by is a stable sort, modelled by
List.mergeSort with the comparator scoreLe. -/
def sortedCandidates (m : MatchFn) (input : String) (s : State) :
    List (DesktopEntry × Nat × Int) :=
  (candidates m input s).mergeSort scoreLe

/-- Conversion of a scored candidate to the returned row, as in the final map
of get_matches. -/
def toMatch (p : DesktopEntry × Nat × Int) : Match :=
  { title := p.1.name
    description := p.1.desc
    use_pango := false
    icon := some p.1.icon
    id := some p.2.1 }

/-- Rust's str::starts_with on the char-list view of strings: s starts with
pre when pre's characters are an initial segment of s's characters. -/
def startsWithStr (s pre : String) : Bool :=
  pre.data.isPrefixOf s.data

/-- The full get_matches function from lib.rs: the ignore-prefix
short-circuit, then filter, stable sort, truncation to max_entries, and
conversion to result rows. -/
def get_matches (m : MatchFn) (input : String) (s : State) : List Match :=
  if ¬ s.config.ignorePrefixVal.isEmpty ∧ startsWithStr input s.config.ignorePrefixVal then
    []
  else
    ((sortedCandidates m input s).take s.config.max_entries).map toMatch

/-- The query entry point seen from the host: get_matches on a borrowed
state. The Rust signature takes the state by immutable reference, so the
state component handed back to the caller is the unchanged state. -/
def query (m : MatchFn) (input : String) (s : State) : List Match × State :=
  (get_matches m input s, s)

/-- The fixed fallback list of terminal emulators, `SENSIBLE_TERMINALS` in
lib.rs. -/
def SENSIBLE_TERMINALS : List String :=
  ["alacritty", "foot", "kitty", "wezterm", "wterm"]

/-- A spawn attempt: program, arguments, and the working directory passed to
current_dir (none when the Command inherits the caller's directory). -/
structure SpawnCmd where
  prog : String
  args : List String
  cwd : Option String
  deriving DecidableEq

/-- The environment the dispatcher runs in: which spawn attempts succeed, the
result of env::current_dir, and which paths exist on the filesystem. -/
structure Env where
  spawnOk : SpawnCmd → Bool
  currentDir : Option String
  pathExists : String → Bool

/-- Modelled from the spec: the caller-visible outcome of select is either
close or copy-to-clipboard; the HandleResult type itself lives in the plugin
interface crate outside the provided sources. -/
inductive HandleResult where
  | Close
  | Copy (text : String)
  deriving DecidableEq

/-- The find_map lookup of the selected id in the catalog, from the start of
handler in lib.rs. -/
def findEntry (s : State) (i : Nat) : Option DesktopEntry :=
  s.entries.findSome? (fun p => if p.2 = i then some p.1 else none)

/-- The fallback loop over the terminal list in handler: returns the list of
attempted terminals, in order, and the first one whose spawn succeeded, if
any; the loop breaks at the first success. -/
def spawnFallback (ok : String → Bool) : List String → List String × Option String
  | [] => ([], none)
  | t :: ts =>
    if ok t then ([t], some t)
    else (t :: (spawnFallback ok ts).1, (spawnFallback ok ts).2)

/-- The handler from lib.rs: looks up the selected entry (the two unwraps are
modelled by the Option monad, none standing for a panic), spawns according to
the terminal configuration or the shell branch, and returns Close. The first
component of the result collects the spawn attempts in order. -/
def handler (env : Env) (selection : Match) (s : State) :
    Option (List SpawnCmd × HandleResult) := do
  let i ← selection.id
  let entry ← findEntry s i
  if entry.term then
    match s.config.terminal with
    | some term => pure ([⟨term, ["-e", entry.exec], none⟩], HandleResult.Close)
    | none =>
      pure (((spawnFallback
            (fun t => env.spawnOk ⟨t, ["-e", entry.exec], none⟩)
            SENSIBLE_TERMINALS).1).map (fun t => ⟨t, ["-e", entry.exec], none⟩),
        HandleResult.Close)
  else
    let current_dir ← env.currentDir
    pure ([⟨"sh", ["-c", entry.exec],
        some (match entry.path with
          | some path => if env.pathExists path then path else current_dir
          | none => current_dir)⟩],
      HandleResult.Close)

/-- The configuration fallback of init in lib.rs: fs::read_to_string and
ron::from_str are external, so they enter as the read result and the parse
function; a read error or a parse error falls back to Config.default. -/
def initConfig (readRes : Except String String)
    (parse : String → Except String Config) : Config :=
  match readRes with
  | Except.ok content =>
    match parse content with
    | Except.ok config => config
    | Except.error _ => Config.default
  | Except.error _ => Config.default

/-- The init function of lib.rs: builds the configuration with fallback and
the catalog from the scrubber result (an error there gives an empty catalog). -/
def init (readRes : Except String String)
    (parse : String → Except String Config)
    (scrubRes : Except String (List (DesktopEntry × Nat))) : State :=
  { config := initConfig readRes parse
    entries :=
      match scrubRes with
      | Except.ok es => es
      | Except.error _ => [] }

/-! ### Helper lemmas -/

/-- Unfolding of the aggregate score into the spec's operand order. -/
theorem entryScore_eq (m : MatchFn) (input : String) (e : DesktopEntry) :
    entryScore m input e =
      150 * (m e.name input).getD 0
        + 50 * (match e.desc with
            | none => 0
            | some comment => (m comment input).getD 0)
        + 25 * (m e.exec input).getD 0
        + (e.keywords.map (fun keyword => (m keyword input).getD 0)).sum
        - e.offset := by
  unfold entryScore
  ring

/-- Membership in the candidate list: exactly the catalog pairs with strictly
positive aggregate score, carrying that score. -/
theorem mem_candidates (m : MatchFn) (input : String) (s : State)
    (x : DesktopEntry × Nat × Int) :
    x ∈ candidates m input s ↔
      (x.1, x.2.1) ∈ s.entries ∧ x.2.2 = entryScore m input x.1 ∧ 0 < x.2.2 := by
  constructor
  · intro hx
    obtain ⟨p, hp, hfp⟩ := List.mem_filterMap.mp hx
    by_cases hpos : entryScore m input p.1 > 0
    · rw [if_pos hpos] at hfp
      obtain rfl := (Option.some.injEq _ _).mp hfp
      exact ⟨by simpa using hp, rfl, hpos⟩
    · rw [if_neg hpos] at hfp
      exact absurd hfp (by simp)
  · rintro ⟨hmem, hsc, hpos⟩
    apply List.mem_filterMap.mpr
    refine ⟨(x.1, x.2.1), hmem, ?_⟩
    have hpos' : entryScore m input x.1 > 0 := hsc ▸ hpos
    rw [if_pos hpos', ← hsc]

/-- The comparator scoreLe is transitive. -/
theorem scoreLe_trans (a b c : DesktopEntry × Nat × Int) :
    scoreLe a b → scoreLe b c → scoreLe a c := by
  intro hab hbc
  simp only [scoreLe, decide_eq_true_eq] at *
  exact hbc.trans hab

/-- The comparator scoreLe is total. -/
theorem scoreLe_total (a b : DesktopEntry × Nat × Int) :
    scoreLe a b || scoreLe b a := by
  simp only [scoreLe, Bool.or_eq_true, decide_eq_true_eq]
  exact le_total _ _

/-- The sorted candidate list is pairwise ordered by descending score. -/
theorem sortedCandidates_pairwise (m : MatchFn) (input : String) (s : State) :
    (sortedCandidates m input s).Pairwise (fun a b => b.2.2 ≤ a.2.2) := by
  have h := List.sorted_mergeSort scoreLe_trans scoreLe_total (candidates m input s)
  exact h.imp (fun hab => by simpa [scoreLe] using hab)

/-- The launched terminal of the fallback loop is the first successful one. -/
theorem spawnFallback_snd (ok : String → Bool) :
    ∀ l : List String, (spawnFallback ok l).2 = l.find? ok := by
  intro l
  induction l with
  | nil => rfl
  | cons t ts ih =>
    by_cases h : ok t
    · simp [spawnFallback, h, List.find?_cons_of_pos]
    · simp [spawnFallback, h, List.find?_cons_of_neg, ih]

/-- The attempted terminals of the fallback loop form an initial segment of
the candidate list. -/
theorem spawnFallback_fst_take (ok : String → Bool) :
    ∀ l : List String, ∃ k, (spawnFallback ok l).1 = l.take k := by
  intro l
  induction l with
  | nil => exact ⟨0, rfl⟩
  | cons t ts ih =>
    by_cases h : ok t
    · exact ⟨1, by simp [spawnFallback, h]⟩
    · obtain ⟨k, hk⟩ := ih
      exact ⟨k + 1, by simp [spawnFallback, h, hk]⟩

/-- Shape of handler's result, covering every branch: whenever handler does
not panic, the result component is Close. -/
theorem handler_snd_close (env : Env) (selection : Match) (s : State)
    (p : List SpawnCmd × HandleResult) (h : handler env selection s = some p) :
    p.2 = HandleResult.Close := by
  cases hid : selection.id with
  | none => simp [handler, hid] at h
  | some i =>
    cases hfind : findEntry s i with
    | none => simp [handler, hid, hfind] at h
    | some entry =>
      cases hterm : entry.term with
      | true =>
        cases hconf : s.config.terminal with
        | none =>
          simp [handler, hid, hfind, hterm, hconf] at h
          rw [← h]
        | some term =>
          simp [handler, hid, hfind, hterm, hconf] at h
          rw [← h]
      | false =>
        cases hcd : env.currentDir with
        | none => simp [handler, hid, hfind, hterm, hcd] at h
        | some cd =>
          simp [handler, hid, hfind, hterm, hcd] at h
          rw [← h]

/-- Characterization of the branches in which handler completes without a
panic: the selection id must be set and found in the catalog, and for a
non-terminal entry env::current_dir must succeed. -/
theorem handler_isSome_iff (env : Env) (selection : Match) (s : State) :
    (handler env selection s).isSome = true ↔
      ∃ i entry, selection.id = some i ∧ findEntry s i = some entry ∧
        (entry.term = true ∨ env.currentDir.isSome = true) := by
  cases hid : selection.id with
  | none => simp [handler, hid]
  | some i =>
    cases hfind : findEntry s i with
    | none => simp [handler, hid, hfind]
    | some entry =>
      cases hterm : entry.term with
      | true =>
        cases hconf : s.config.terminal with
        | none => simp [handler, hid, hfind, hterm, hconf]
        | some term => simp [handler, hid, hfind, hterm, hconf]
      | false =>
        cases hcd : env.currentDir with
        | none => simp [handler, hid, hfind, hterm, hcd]
        | some cd => simp [handler, hid, hfind, hterm, hcd]

/-! ### Test fixtures for witnesses -/

/-- A concrete matcher for witnesses: scores 2 when the query equals the
haystack, and no match otherwise. -/
def mT : MatchFn := fun hay q => if hay == q then some 2 else none

/-- A concrete catalog entry for witnesses. -/
def firefoxEntry : DesktopEntry :=
  { name := "Firefox"
    desc := some "Web Browser"
    exec := "firefox"
    icon := "firefox"
    keywords := ["web", "internet"]
    term := false
    path := none
    offset := 0 }

/-- A concrete state for witnesses. -/
def sT : State :=
  { config := Config.default, entries := [(firefoxEntry, 0)] }

/-! ### Claim theorems -/

/-- C1: a catalog entry appears as a candidate result if and only if its
aggregate score, 150 times the name match plus 50 times the description match
(0 when absent) plus 25 times the exec match plus the sum of the keyword
matches, minus the offset, is strictly positive; unmatched fields contribute 0. -/
theorem c1_candidate_iff_positive_score (m : MatchFn) (input : String)
    (s : State) (e : DesktopEntry) (i : Nat) (hmem : (e, i) ∈ s.entries) :
    (e, i, entryScore m input e) ∈ candidates m input s ↔
      0 < 150 * (m e.name input).getD 0
            + 50 * (match e.desc with
                | none => 0
                | some comment => (m comment input).getD 0)
            + 25 * (m e.exec input).getD 0
            + (e.keywords.map (fun keyword => (m keyword input).getD 0)).sum
            - e.offset := by
  rw [← entryScore_eq, mem_candidates]
  simp [hmem]

/-- C1 witness: the Firefox entry with query "firefox" has score 50 and is a
candidate. -/
theorem c1_witness :
    (firefoxEntry, 0, entryScore mT "firefox" firefoxEntry) ∈ candidates mT "firefox" sT :=
  (c1_candidate_iff_positive_score mT "firefox" sT firefoxEntry 0 (by decide)).mpr
    (by decide)

/-- C2: the candidates are returned sorted by descending aggregate score, the
sort is stable (any descending-ordered subsequence of the candidate list is
still a subsequence of the sorted list, so equal scores keep catalog order),
and the sorted list is a permutation of the candidate list. -/
theorem c2_sorted_stable (m : MatchFn) (input : String) (s : State)
    (c : List (DesktopEntry × Nat × Int))
    (hsub : c.Sublist (candidates m input s))
    (hc : c.Pairwise (fun a b => b.2.2 ≤ a.2.2)) :
    (sortedCandidates m input s).Pairwise (fun a b => b.2.2 ≤ a.2.2)
      ∧ c.Sublist (sortedCandidates m input s)
      ∧ (sortedCandidates m input s).Perm (candidates m input s) := by
  refine ⟨sortedCandidates_pairwise m input s, ?_, List.mergeSort_perm _ _⟩
  have hc' : c.Pairwise (fun a b => scoreLe a b) :=
    hc.imp (fun hab => by simpa [scoreLe] using hab)
  exact List.sublist_mergeSort scoreLe_trans scoreLe_total hc' hsub

/-- C2 witness: instantiation at the Firefox fixture with the empty
subsequence. -/
theorem c2_witness :
    (sortedCandidates mT "firefox" sT).Pairwise (fun a b => b.2.2 ≤ a.2.2)
      ∧ List.Sublist [] (sortedCandidates mT "firefox" sT)
      ∧ (sortedCandidates mT "firefox" sT).Perm (candidates mT "firefox" sT) :=
  c2_sorted_stable mT "firefox" sT [] (List.nil_sublist _) List.Pairwise.nil

/-- C3: the returned sequence never exceeds max_entries, the output is the
truncation of the sorted candidate list, and every retained candidate scores
at least as high as every truncated-away candidate. -/
theorem c3_truncation_after_sort (m : MatchFn) (input : String) (s : State) :
    (get_matches m input s).length ≤ s.config.max_entries
      ∧ get_matches m input s =
          (if ¬ s.config.ignorePrefixVal.isEmpty
              ∧ startsWithStr input s.config.ignorePrefixVal then []
            else ((sortedCandidates m input s).take s.config.max_entries).map toMatch)
      ∧ ∀ a ∈ (sortedCandidates m input s).take s.config.max_entries,
          ∀ b ∈ (sortedCandidates m input s).drop s.config.max_entries,
            b.2.2 ≤ a.2.2 := by
  refine ⟨?_, rfl, ?_⟩
  · rw [get_matches]
    split
    · simp
    · simp only [List.length_map, List.length_take]
      exact min_le_left _ _
  · intro a ha b hb
    have hp := sortedCandidates_pairwise m input s
    rw [← List.take_append_drop s.config.max_entries (sortedCandidates m input s)]
      at hp
    exact (List.pairwise_append.mp hp).2.2 a ha b hb

/-- C3 witness: instantiation at the Firefox fixture. -/
theorem c3_witness :
    (get_matches mT "firefox" sT).length ≤ sT.config.max_entries :=
  (c3_truncation_after_sort mT "firefox" sT).1

/-- C4: when the configured ignore-prefix is non-empty and the raw input
starts with it, get_matches returns the empty list regardless of the catalog. -/
theorem c4_ignore_short_circuit (m : MatchFn) (input : String) (s : State)
    (h1 : ¬ s.config.ignorePrefixVal = "")
    (h2 : startsWithStr input s.config.ignorePrefixVal = true) :
    get_matches m input s = [] := by
  rw [get_matches, if_pos]
  refine ⟨?_, h2⟩
  simpa [String.isEmpty_iff] using h1

/-- A concrete state with ignore-prefix "sys:" for the C4 witness. -/
def sT4 : State :=
  { config :=
      { desktop_actions := false
        max_entries := 5
        terminal := none
        ignorePrefixVal := "sys:" }
    entries := [(firefoxEntry, 0)] }

/-- C4 witness: with ignore-prefix "sys:" the query "sys:time" yields no
results even on a non-empty catalog. -/
theorem c4_witness : get_matches mT "sys:time" sT4 = [] :=
  c4_ignore_short_circuit mT "sys:time" sT4 (by decide) (by decide)

/-- C5: the fallback list is alacritty, foot, kitty, wezterm, wterm in that
order; the launched terminal is the first whose spawn succeeds; the attempted
terminals are an initial segment of the list, each attempted at most once;
and when every spawn fails nothing is launched. -/
theorem c5_terminal_fallback (ok : String → Bool) :
    SENSIBLE_TERMINALS = ["alacritty", "foot", "kitty", "wezterm", "wterm"]
      ∧ (spawnFallback ok SENSIBLE_TERMINALS).2 = SENSIBLE_TERMINALS.find? ok
      ∧ (∃ k, (spawnFallback ok SENSIBLE_TERMINALS).1 = SENSIBLE_TERMINALS.take k)
      ∧ (spawnFallback ok SENSIBLE_TERMINALS).1.Nodup
      ∧ ((∀ t ∈ SENSIBLE_TERMINALS, ok t = false) →
          (spawnFallback ok SENSIBLE_TERMINALS).2 = none) := by
  refine ⟨rfl, spawnFallback_snd ok _, spawnFallback_fst_take ok _, ?_, ?_⟩
  · obtain ⟨k, hk⟩ := spawnFallback_fst_take ok SENSIBLE_TERMINALS
    rw [hk]
    exact (List.take_sublist _ _).nodup (by decide)
  · intro hfail
    rw [spawnFallback_snd ok _]
    exact List.find?_eq_none.mpr (fun t ht => by simp [hfail t ht])

/-- C5 witness: when only kitty spawns successfully, kitty is launched after
attempting alacritty and foot; and when every spawn fails, nothing is
launched. -/
theorem c5_witness :
    (spawnFallback (fun t => t == "kitty") SENSIBLE_TERMINALS).2 = some "kitty"
      ∧ (spawnFallback (fun _ => false) SENSIBLE_TERMINALS).2 = none :=
  ⟨((c5_terminal_fallback (fun t => t == "kitty")).2.1).trans (by decide),
    (c5_terminal_fallback (fun _ => false)).2.2.2.2 (by decide)⟩

/-- C6: for a non-terminal entry, handler spawns sh -c with the entry's exec,
and the working directory is the entry's path when it is set and exists, and
the process's current directory otherwise. -/
theorem c6_shell_working_dir (env : Env) (selection : Match) (s : State)
    (i : Nat) (entry : DesktopEntry) (cd : String)
    (hid : selection.id = some i)
    (hfind : findEntry s i = some entry)
    (hterm : entry.term = false)
    (hcd : env.currentDir = some cd) :
    handler env selection s =
      some ([⟨"sh", ["-c", entry.exec],
          some (match entry.path with
            | some path => if env.pathExists path then path else cd
            | none => cd)⟩],
        HandleResult.Close) := by
  simp [handler, hid, hfind, hterm, hcd]

/-- A non-terminal entry whose configured working directory does not exist,
for the C6 witness. -/
def entryT6 : DesktopEntry :=
  { name := "App"
    desc := none
    exec := "app --run"
    icon := "app"
    keywords := []
    term := false
    path := some "/nonexistent/path"
    offset := 0 }

/-- Environment for the C6 witness: no path exists and the current directory
is /home/user. -/
def envT6 : Env :=
  { spawnOk := fun _ => true
    currentDir := some "/home/user"
    pathExists := fun _ => false }

/-- State and selection for the C6 witness. -/
def sT6 : State :=
  { config := Config.default, entries := [(entryT6, 60)] }

/-- The selection row for the C6 witness. -/
def selT6 : Match :=
  { title := "App"
    description := none
    use_pango := false
    icon := some "app"
    id := some 60 }

/-- C6 witness: with working_dir = /nonexistent/path absent from the
filesystem, the spawn runs in the caller's current directory /home/user. -/
theorem c6_witness :
    handler envT6 selT6 sT6 =
      some ([⟨"sh", ["-c", "app --run"], some "/home/user"⟩], HandleResult.Close) := by
  have h := c6_shell_working_dir envT6 selT6 sT6 60 entryT6 "/home/user" rfl rfl rfl rfl
  simpa [entryT6, envT6] using h

/-- C7: whenever handler completes, the caller-visible outcome is Close, for
every spawn environment; spawn failures never change the returned outcome. -/
theorem c7_always_close (env : Env) (selection : Match) (s : State)
    (p : List SpawnCmd × HandleResult) (h : handler env selection s = some p) :
    p.2 = HandleResult.Close :=
  handler_snd_close env selection s p h

/-- Environment for the C7 witness: every spawn fails. -/
def envT7 : Env :=
  { spawnOk := fun _ => false
    currentDir := some "/home/user"
    pathExists := fun _ => false }

/-- A terminal entry for the C7 witness. -/
def htopEntry : DesktopEntry :=
  { name := "Htop"
    desc := none
    exec := "htop"
    icon := "htop"
    keywords := []
    term := true
    path := none
    offset := 0 }

/-- State for the C7 witness. -/
def sT7 : State :=
  { config := Config.default, entries := [(htopEntry, 70)] }

/-- Selection row for the C7 witness. -/
def selT7 : Match :=
  { title := "Htop"
    description := none
    use_pango := false
    icon := some "htop"
    id := some 70 }

/-- C7 witness: even when every spawn attempt fails, the outcome is Close. -/
theorem c7_witness :
    (((spawnFallback (fun t => envT7.spawnOk ⟨t, ["-e", "htop"], none⟩)
        SENSIBLE_TERMINALS).1).map
          (fun t => (⟨t, ["-e", "htop"], none⟩ : SpawnCmd)),
      HandleResult.Close).2 = HandleResult.Close :=
  c7_always_close envT7 selT7 sT7 _ rfl

/-- C8 amended: handler completes without a panic exactly when the selection
id is set and present in the catalog and, for a non-terminal entry, the
current directory is retrievable; a selection with an absent or unknown id,
or an invalid current directory on the shell branch, makes it panic. -/
theorem c8_no_crash_characterization (env : Env) (selection : Match) (s : State) :
    (handler env selection s).isSome = true ↔
      ∃ i entry, selection.id = some i ∧ findEntry s i = some entry ∧
        (entry.term = true ∨ env.currentDir.isSome = true) :=
  handler_isSome_iff env selection s

/-- A selection with no id, refuting C8 as stated. -/
def selNoId : Match :=
  { title := "Firefox"
    description := some "Web Browser"
    use_pango := false
    icon := some "firefox"
    id := none }

/-- C8 counterexample: selecting a row whose id is absent makes the
dispatcher panic (selection.id.unwrap() in lib.rs, modelled as none), so
select does crash on this input rather than degrade. -/
theorem c8_counterexample : handler envT7 selNoId sT = none := rfl

/-- C8 witness: with a valid id present in the catalog and a retrievable
current directory, handler completes. -/
theorem c8_witness : (handler envT6 selT6 sT6).isSome = true :=
  (c8_no_crash_characterization envT6 selT6 sT6).mpr
    ⟨60, entryT6, rfl, rfl, Or.inr rfl⟩

/-- C9: querying twice with the same input against the state handed back by
the first call gives the same result list, and the state after a call keeps
the same catalog (entries, ids, offsets, order) and configuration. -/
theorem c9_deterministic_no_mutation (m : MatchFn) (input : String) (s : State) :
    (query m input ((query m input s).2)).1 = (query m input s).1
      ∧ (query m input s).2.entries = s.entries
      ∧ (query m input s).2.config = s.config :=
  ⟨rfl, rfl, rfl⟩

/-- C10: a configuration read error or parse error makes init fall back to
the default configuration, which is desktop_actions = false, max_entries = 5,
terminal = none, ignore-prefix = ""; init itself still returns a state. -/
theorem c10_config_fallback (readRes : Except String String)
    (parse : String → Except String Config)
    (scrubRes : Except String (List (DesktopEntry × Nat)))
    (h : (∃ e, readRes = Except.error e) ∨
        (∃ content e, readRes = Except.ok content ∧ parse content = Except.error e)) :
    (init readRes parse scrubRes).config = Config.default
      ∧ Config.default =
          { desktop_actions := false
            max_entries := 5
            terminal := none
            ignorePrefixVal := "" } := by
  refine ⟨?_, rfl⟩
  rcases h with ⟨e, he⟩ | ⟨content, e, hc, hp⟩
  · simp [init, initConfig, he]
  · simp [init, initConfig, hc, hp]

/-- C10 witness: a failing read yields the default configuration. -/
theorem c10_witness :
    (init (Except.error "no such file") (fun _ => Except.error "bad")
        (Except.ok [])).config = Config.default :=
  (c10_config_fallback (Except.error "no such file") (fun _ => Except.error "bad")
      (Except.ok []) (Or.inl ⟨"no such file", rfl⟩)).1

end Anyrun
